import Mathlib

/-!
Shallow embedding of src/pa3.c: a software MMU simulation with a two-level
page table, a TLB, frame reference counts (mapcounts) and COW process fork.
Fixed arrays of the C code are modelled as total functions from Nat; only
the in-bounds indices are ever used by the embedded operations. Loops are
modelled as scans over List.range with the same iteration order and early
exit as the C loops. Machine unsigned arithmetic is Nat with an explicit
mod 2^32 where the C can wrap. Operations whose C execution is undefined
(a NULL directory dereference, a read of an uninitialized value, an
out-of-bounds array store) return none at exactly that point.
-/

/-- C unsigned int wrap modulus. -/
def UINT_MOD : Nat := 2 ^ 32

/-- C unsigned increment (n++ on an unsigned int). -/
def cInc (n : Nat) : Nat := (n + 1) % UINT_MOD

/-- C unsigned decrement (n-- on an unsigned int), wrapping at zero. -/
def cDec (n : Nat) : Nat := (n + (UINT_MOD - 1)) % UINT_MOD

/-- C result of the == operator as an int (1 or 0). -/
def cEq (a b : Nat) : Nat := if a == b then 1 else 0

/-- Pointwise update of a function-modelled array at one index. -/
def updFn {α : Type} (f : Nat → α) (i : Nat) (v : α) : Nat → α :=
  fun k => if k = i then v else f k

/-- Fan-out of each page-table level: pa3.c indexes directories and
entries with vpn / NR_PTES_PER_PAGE and vpn % NR_PTES_PER_PAGE, and its
loops run to the hard-coded 16. -/
def NR_PTES_PER_PAGE : Nat := 16

/-- Number of physical frames: alloc_page scans mapcounts indices 0..127. -/
def NR_PAGEFRAMES : Nat := 128

/-- TLB capacity: `1UL << (PTES_PER_PAGE_SHIFT * 2)` = 256, matching the
hard-coded 256 in the lookup and invalidation loops. -/
def NR_TLB_ENTRIES : Nat := 256

/-- Modelled from the spec: the header vm.h defining the access-mode
constants is not under src/; the access modes of the spec enum {Read,
Write} are encoded as the usual bit flags of this framework, which the
source evidently assumes (it tests `rw == ACCESS_WRITE | ACCESS_READ`
expecting writable PTEs to carry both bits). -/
def ACCESS_READ : Nat := 1

/-- Modelled from the spec: write access flag, see ACCESS_READ. -/
def ACCESS_WRITE : Nat := 2

/-- struct pte of the framework: valid, rw, private, pfn. The C field
named `private` is called `priv` here because private is a Lean keyword. -/
structure Pte where
  valid : Bool
  rw : Nat
  priv : Nat
  pfn : Nat
deriving DecidableEq, Repr

/-- A zero pte: malloc-fresh directory slots are modelled as zeroed
(the C leaves them indeterminate; zero is the weakest choice under
which the later reads of the source are defined). -/
def zeroPte : Pte := { valid := false, rw := 0, priv := 0, pfn := 0 }

/-- struct pte_directory: a fixed array of NR_PTES_PER_PAGE ptes. -/
structure PteDirectory where
  ptes : Nat → Pte

/-- A freshly malloc-ed directory, modelled zeroed. -/
def zeroDir : PteDirectory := { ptes := fun _ => zeroPte }

/-- struct pagetable: outer_ptes, an array of nullable directory
pointers, NULL modelled as none. -/
structure Pagetable where
  outer_ptes : Nat → Option PteDirectory

/-- An empty page table: every directory pointer NULL. -/
def zeroPagetable : Pagetable := { outer_ptes := fun _ => none }

/-- struct process: pid and its page table (list linkage is modelled by
membership in the ready-queue list of the machine state). -/
structure Process where
  pid : Nat
  pagetable : Pagetable

/-- struct tlb_entry: valid, vpn, rw, pfn. -/
structure TlbEntry where
  valid : Bool
  vpn : Nat
  rw : Nat
  pfn : Nat
deriving DecidableEq, Repr

/-- A zeroed TLB entry: the extern tlb array has static storage and is
zero-initialized by C semantics. -/
def zeroTlbEntry : TlbEntry := { valid := false, vpn := 0, rw := 0, pfn := 0 }

/-- The global mutable state of pa3.c: the current process, the ready
queue (list_add prepends, list_for_each_entry walks from the head), the
page-table base register ptbr (a pointer to some process page table,
modelled as the pid of the process it points at), the TLB array, the
static insertion cursor tlbidx of insert_tlb, and the mapcounts array. -/
structure MMU where
  current : Process
  processes : List Process
  ptbr : Nat
  tlb : Nat → TlbEntry
  tlbidx : Nat
  mapcounts : Nat → Nat

/-- The initial process, pid 0 with an empty page table. -/
def initProcess : Process := { pid := 0, pagetable := zeroPagetable }

/-- The initial machine state: one running process, empty ready queue,
ptbr pointing at the page table of the running process, zeroed TLB and
mapcounts (extern arrays with static storage), tlbidx 0. -/
def initMMU : MMU :=
  { current := initProcess
    processes := []
    ptbr := 0
    tlb := fun _ => zeroTlbEntry
    tlbidx := 0
    mapcounts := fun _ => 0 }

/-- Observation helper: the pte a process holds for a vpn, through the
directory and entry split (zeroPte when the directory is NULL). -/
def pteOfProc (p : Process) (vpn : Nat) : Pte :=
  match p.pagetable.outer_ptes (vpn / NR_PTES_PER_PAGE) with
  | none => zeroPte
  | some dir => dir.ptes (vpn % NR_PTES_PER_PAGE)

/-- Observation helper: the pte of the current process for a vpn. -/
def pteAt (st : MMU) (vpn : Nat) : Pte := pteOfProc st.current vpn

/-- lookup_tlb of pa3.c. The C loop scans tlb[0..255] and returns true at
the first entry with valid, equal vpn and equal rw. Its body executes
`pfn = &tlb->pfn`, which reassigns the local pointer parameter itself;
nothing is ever stored through the pointer of the caller, so the value of
the out variable of the caller (the last argument here) is returned
unchanged in both cases. -/
def lookup_tlb (t : Nat → TlbEntry) (vpn rw : Nat) (pfnVar : Nat) : Bool × Nat :=
  match (List.range NR_TLB_ENTRIES).find?
      (fun i => (t i).valid && (t i).vpn == vpn && (t i).rw == rw) with
  | some _ => (true, pfnVar)
  | none => (false, pfnVar)

/-- insert_tlb of pa3.c: unconditionally writes a new valid entry at the
static cursor tlbidx and post-increments it. There is no search for an
existing entry for the vpn and no wrap-around; once tlbidx reaches the
array size 256 the store is out of bounds, modelled as none. -/
def insert_tlb (st : MMU) (vpn rw pfn : Nat) : Option MMU :=
  if st.tlbidx < NR_TLB_ENTRIES then
    some { st with
           tlb := updFn st.tlb st.tlbidx { valid := true, vpn := vpn, rw := rw, pfn := pfn }
           tlbidx := st.tlbidx + 1 }
  else none

/-- The state mutation of alloc_page once the ascending scan has chosen
the free frame i: mapcounts[i] is incremented (0 becomes 1) and the pte
{valid := true, rw := rw, private := 0, pfn := i} is installed at the
directory and entry index of vpn, with the directory malloc-ed first if
it was NULL (modelled zeroed). -/
def allocInstall (st : MMU) (vpn rw i : Nat) : MMU :=
  let d := vpn / NR_PTES_PER_PAGE
  let e := vpn % NR_PTES_PER_PAGE
  let dir := (st.current.pagetable.outer_ptes d).getD zeroDir
  let newpte : Pte := { valid := true, rw := rw, priv := 0, pfn := i }
  let dir2 : PteDirectory := { ptes := updFn dir.ptes e newpte }
  let pt2 : Pagetable := { outer_ptes := updFn st.current.pagetable.outer_ptes d (some dir2) }
  { st with
    current := { st.current with pagetable := pt2 }
    mapcounts := updFn st.mapcounts i (cInc (st.mapcounts i)) }

/-- alloc_page of pa3.c: scans mapcounts[0..127] in ascending order for
the first zero count and installs that frame via allocInstall, returning
its number. When no count is zero the local newpte.pfn is never
initialized, yet the C still installs the pte and returns newpte.pfn: a
read of an indeterminate value, modelled as none. -/
def alloc_page (st : MMU) (vpn rw : Nat) : Option (MMU × Nat) :=
  match (List.range NR_PAGEFRAMES).find? (fun i => st.mapcounts i == 0) with
  | none => none
  | some i => some (allocInstall st vpn rw i, i)

/-- The TLB invalidation loop inside free_page: scans tlb[0..255] and
clears the valid bit of the first entry whose vpn field equals vpn
(whether or not it is valid), then breaks. -/
def tlbInvalidateFirst (t : Nat → TlbEntry) (vpn : Nat) : Nat → TlbEntry :=
  match (List.range NR_TLB_ENTRIES).find? (fun i => (t i).vpn == vpn) with
  | none => t
  | some i => updFn t i { t i with valid := false }

/-- The pte clearing of free_page: rw := 0, valid := false, pfn := 0.
The private field is left as it was. -/
def clearPte (p : Pte) : Pte := { p with valid := false, rw := 0, pfn := 0 }

/-- The nested scan of free_page over directory indices d = 0..15: for
each d the C dereferences outer_ptes[d] with no NULL check (none here
models that crash), then tests each entry e = 0..15 for
`ptes[e].private == vpn`; at the first such entry it clears the pte,
decrements mapcounts[vpn] (indexed by the vpn, exactly as the source
does), invalidates the first TLB entry for vpn and returns. Falling
through every directory is a silent no-op. -/
def free_pageGo (st : MMU) (vpn : Nat) : List Nat → Option MMU
  | [] => some st
  | d :: rest =>
    match st.current.pagetable.outer_ptes d with
    | none => none
    | some dir =>
      match (List.range NR_PTES_PER_PAGE).find? (fun e => (dir.ptes e).priv == vpn) with
      | some e =>
        let dir2 : PteDirectory := { ptes := updFn dir.ptes e (clearPte (dir.ptes e)) }
        let pt2 : Pagetable :=
          { outer_ptes := updFn st.current.pagetable.outer_ptes d (some dir2) }
        some { st with
               current := { st.current with pagetable := pt2 }
               mapcounts := updFn st.mapcounts vpn (cDec (st.mapcounts vpn))
               tlb := tlbInvalidateFirst st.tlb vpn }
      | none => free_pageGo st vpn rest

/-- free_page of pa3.c, the outer loop over all 16 directory indices. -/
def free_page (st : MMU) (vpn : Nat) : Option MMU :=
  free_pageGo st vpn (List.range NR_PTES_PER_PAGE)

/-- handle_page_fault of pa3.c: the submission leaves the handler
unimplemented; its entire body is `return false`, mutating nothing. -/
def handle_page_fault (st : MMU) (vpn rw : Nat) : MMU × Bool := (st, false)

/-- The per-pte step of the fork loop in switch_process, for a valid
parent pte. The C condition is `pte.rw == ACCESS_WRITE | ACCESS_READ`,
which by C precedence is `(pte.rw == ACCESS_WRITE) | ACCESS_READ`; when
it is nonzero the chained assignments set rw := ACCESS_READ and
private := 1 on the parent pte and copy the same into the new pte;
otherwise only rw is copied (and the private field of the new pte is
left uninitialized by the C; under the modelled access constants the
else branch is unreachable, and the uninitialized field is modelled 0).
Either way the new pte is valid with the parent pfn. Returns the
(mutated parent pte, child pte) pair. -/
def forkPte (p : Pte) : Pte × Pte :=
  if (cEq p.rw ACCESS_WRITE) ||| ACCESS_READ ≠ 0 then
    ({ p with rw := ACCESS_READ, priv := 1 },
     { valid := true, rw := ACCESS_READ, priv := 1, pfn := p.pfn })
  else
    (p, { valid := true, rw := p.rw, priv := 0, pfn := p.pfn })

/-- The inner fork loop body over entry index j for directory i (base =
i * NR_PTES_PER_PAGE): only valid parent ptes are processed; the C then
increments mapcounts[i*NR_PTES_PER_PAGE+j], i.e. the count indexed by
the vpn, exactly as the source does. The accumulator carries the parent
directory, the child directory and the mapcounts array. -/
def forkDirStep (base : Nat) (acc : PteDirectory × PteDirectory × (Nat → Nat))
    (j : Nat) : PteDirectory × PteDirectory × (Nat → Nat) :=
  let pdir := acc.1
  let cdir := acc.2.1
  let mc := acc.2.2
  if (pdir.ptes j).valid then
    let pr := forkPte (pdir.ptes j)
    ({ ptes := updFn pdir.ptes j pr.1 },
     { ptes := updFn cdir.ptes j pr.2 },
     updFn mc (base + j) (cInc (mc (base + j))))
  else acc

/-- The outer fork loop body over directory index i: a NULL parent
directory is skipped with continue (the corresponding child slot is
never written by the C; the child page table starts out modelled empty);
otherwise the child directory is malloc-ed (modelled zeroed) and the
inner loop runs over all 16 entries. -/
def forkStep (acc : Pagetable × Pagetable × (Nat → Nat)) (i : Nat) :
    Pagetable × Pagetable × (Nat → Nat) :=
  let ppt := acc.1
  let cpt := acc.2.1
  let mc := acc.2.2
  match ppt.outer_ptes i with
  | none => acc
  | some pdir =>
    let r := (List.range NR_PTES_PER_PAGE).foldl
      (forkDirStep (i * NR_PTES_PER_PAGE)) (pdir, zeroDir, mc)
    ({ outer_ptes := updFn ppt.outer_ptes i (some r.1) },
     { outer_ptes := updFn cpt.outer_ptes i (some r.2.1) },
     r.2.2)

/-- list_for_each_entry search with list_del: finds the first process
with the pid in the ready queue and returns it with the queue with that
process removed, in order. -/
def findInQueue : List Process → Nat → Option (Process × List Process)
  | [], _ => none
  | p :: rest, pid =>
    if p.pid == pid then some (p, rest)
    else
      match findInQueue rest pid with
      | some (q, rest2) => some (q, p :: rest2)
      | none => none

/-- switch_process of pa3.c. Found branch: unlink the found process,
list_add the current process at the queue head, make the found process
current, and return; the C never assigns ptbr in this branch, so the
ptbr field is unchanged. Fork branch: build a child with the given pid
by the fork loops, list_add the (mutated) current process at the queue
head and make the child current; ptbr is not assigned here either. -/
def switch_process (st : MMU) (pid : Nat) : MMU :=
  match findInQueue st.processes pid with
  | some (pos, rest) =>
    { st with current := pos, processes := st.current :: rest }
  | none =>
    let r := (List.range NR_PTES_PER_PAGE).foldl forkStep
      (st.current.pagetable, zeroPagetable, st.mapcounts)
    let oldCur : Process := { st.current with pagetable := r.1 }
    let child : Process := { pid := pid, pagetable := r.2.1 }
    { st with
      current := child
      processes := oldCur :: st.processes
      mapcounts := r.2.2 }

/-- Number of valid ptes with pfn = f inside one (possibly NULL)
directory. -/
def dirPteCount (dir : Option PteDirectory) (f : Nat) : Nat :=
  match dir with
  | none => 0
  | some dir =>
    ((List.range NR_PTES_PER_PAGE).filter
      (fun e => (dir.ptes e).valid && (dir.ptes e).pfn == f)).length

/-- Number of valid ptes with pfn = f in the page table of a process. -/
def procPteCount (p : Process) (f : Nat) : Nat :=
  ((List.range NR_PTES_PER_PAGE).map
    (fun d => dirPteCount (p.pagetable.outer_ptes d) f)).sum

/-- Number of valid ptes with pfn = f across all processes (the current
one and every process of the ready queue). -/
def totalPteCount (st : MMU) (f : Nat) : Nat :=
  ((st.current :: st.processes).map (fun p => procPteCount p f)).sum

/-- The global refcount invariant of the spec: for every frame, the
mapcount equals the number of valid ptes across all processes whose pfn
field is that frame. -/
def refcountInvariant (st : MMU) : Prop :=
  ∀ f, f < NR_PAGEFRAMES → st.mapcounts f = totalPteCount st f

/-- State after alloc_page(5, ACCESS_WRITE) from the initial state:
frame 0 is handed out and mapped writable at vpn 5. -/
def allocWriteState : MMU :=
  match alloc_page initMMU 5 ACCESS_WRITE with
  | some r => r.1
  | none => initMMU

/-- State after a COW fork: switch_process(1) from allocWriteState with
an empty ready queue takes the fork branch. -/
def forkState : MMU := switch_process allocWriteState 1

/-- State after alloc_page(5, ACCESS_READ) from the initial state:
frame 0 is handed out and mapped read-only at vpn 5. -/
def allocReadState : MMU :=
  match alloc_page initMMU 5 ACCESS_READ with
  | some r => r.1
  | none => initMMU

/-- State after a COW fork of allocReadState by switch_process(1). -/
def forkReadState : MMU := switch_process allocReadState 1

/-- State after sixteen allocations at vpns 0, 16, ..., 240 from the
initial state: every one of the 16 directories is allocated and frames
0..15 are handed out (one valid pte per directory, at entry 0). -/
def allDirsState : MMU :=
  (List.range NR_PTES_PER_PAGE).foldl
    (fun s d =>
      match alloc_page s (d * NR_PTES_PER_PAGE) ACCESS_WRITE with
      | some r => r.1
      | none => s)
    initMMU

/-- allDirsState plus alloc_page(5, ACCESS_WRITE): vpn 5 is mapped
writable to frame 16 and no directory pointer is NULL, so free_page can
run its scan without crashing. -/
def mappedAllDirsState : MMU :=
  match alloc_page allDirsState 5 ACCESS_WRITE with
  | some r => r.1
  | none => allDirsState

/-- A state in which every frame has a nonzero mapcount: no frame is
free, so an allocation must fail. -/
def fullFramesState : MMU := { initMMU with mapcounts := fun _ => 1 }

/-- A TLB whose slot 0 holds a valid read entry for vpn 3 with pfn 7. -/
def oneEntryTlb : Nat → TlbEntry :=
  updFn (fun _ => zeroTlbEntry) 0 { valid := true, vpn := 3, rw := ACCESS_READ, pfn := 7 }

/-- State after two insert_tlb calls for the same vpn 5 from the initial
state: first as a read mapping to pfn 7, then as a write mapping to
pfn 9. -/
def tlbTwiceState : MMU :=
  match insert_tlb initMMU 5 ACCESS_READ 7 with
  | some s1 =>
    match insert_tlb s1 5 ACCESS_WRITE 9 with
    | some s2 => s2
    | none => s1
  | none => initMMU

/-- A process with pid 7 and an empty page table. -/
def procA : Process := { pid := 7, pagetable := zeroPagetable }

/-- A process with pid 3 and an empty page table. -/
def procB : Process := { pid := 3, pagetable := zeroPagetable }

/-- A state with procA current (ptbr pointing at its page table) and
procB waiting in the ready queue. -/
def twoProcState : MMU := { initMMU with current := procA, processes := [procB], ptbr := 7 }

/-- State after switch_process(3) from twoProcState: pid 3 is found in
the ready queue, so the found branch runs. -/
def switchedState : MMU := switch_process twoProcState 3

/-- A copy-on-write pte: valid, read-only, shared marker set, frame 0. -/
def cowPte : Pte := { valid := true, rw := ACCESS_READ, priv := 1, pfn := 0 }

/-- A directory holding cowPte at entry 5. -/
def cowDir : PteDirectory := { ptes := updFn zeroDir.ptes 5 cowPte }

/-- A state whose current process maps vpn 5 by cowPte and in which
frame 0 has mapcount exactly 1: the single-owner COW fast-path premise
of the fault handler. -/
def cowState : MMU :=
  { initMMU with
    current :=
      { pid := 0
        pagetable := { outer_ptes := updFn zeroPagetable.outer_ptes 0 (some cowDir) } }
    mapcounts := updFn (fun _ => 0) 0 1 }

/-- Claim C1: refuted on the code. From the initial state,
alloc_page(5, ACCESS_WRITE) hands out frame 0, and the following fork
(switch_process with a pid absent from the ready queue) leaves two valid
ptes whose pfn is 0 while mapcounts[0] stays 1 and mapcounts[5] becomes
1, because the fork increments mapcounts at the vpn (i*16+j) instead of
at the pfn of the copied pte. The global refcount invariant therefore
fails after this two-operation sequence. -/
theorem refcount_invariant_violated_after_fork :
    (alloc_page initMMU 5 ACCESS_WRITE).map Prod.snd = some 0 ∧
    totalPteCount forkState 0 = 2 ∧
    forkState.mapcounts 0 = 1 ∧
    totalPteCount forkState 5 = 0 ∧
    forkState.mapcounts 5 = 1 ∧
    ¬ refcountInvariant forkState := by
  refine ⟨by decide, by decide, by decide, by decide, by decide, fun h => ?_⟩
  exact absurd (h 0 (by decide)) (by decide)

/-- Claim C2: refuted on the code. In the fork of allocWriteState the
writable pte for vpn 5 (pfn 0) is indeed demoted to read-only with the
shared marker set on parent and child, but the refcount of frame 0 is
not incremented (mapcounts[0] stays 1) while mapcounts[5] is incremented
instead: the fork indexes mapcounts by the vpn, not by the pfn field of
the pte. Moreover a read-only pte is not replicated unchanged: after the
fork of allocReadState the parent pte for vpn 5, whose private field was
0, has private = 1, because the C condition
rw == ACCESS_WRITE | ACCESS_READ parses as
(rw == ACCESS_WRITE) | ACCESS_READ and is always true. -/
theorem cow_fork_updates_wrong_refcount :
    pteAt forkState 5 = { valid := true, rw := ACCESS_READ, priv := 1, pfn := 0 } ∧
    pteOfProc (forkState.processes.getD 0 initProcess) 5
      = { valid := true, rw := ACCESS_READ, priv := 1, pfn := 0 } ∧
    forkState.mapcounts 0 = 1 ∧
    forkState.mapcounts 5 = 1 ∧
    (pteAt allocReadState 5).priv = 0 ∧
    (pteOfProc (forkReadState.processes.getD 0 initProcess) 5).priv = 1 := by
  refine ⟨by decide, by decide, by decide, by decide, by decide, by decide⟩

/-- Claim C3: refuted on the code. In mappedAllDirsState vpn 5 is mapped
writable to frame 16 with mapcounts[16] = 1, yet free_page(5) returns
with the pte still valid and mapcounts[16] still 1: the scan of
free_page looks for a pte whose private field equals the vpn instead of
using the directory and entry split of the vpn, so a normally mapped
page (private = 0) is never found and nothing is freed. -/
theorem free_page_misses_mapped_vpn :
    pteAt mappedAllDirsState 5
      = { valid := true, rw := ACCESS_WRITE, priv := 0, pfn := 16 } ∧
    mappedAllDirsState.mapcounts 16 = 1 ∧
    (free_page mappedAllDirsState 5).isSome = true ∧
    ((free_page mappedAllDirsState 5).getD initMMU).mapcounts 16 = 1 ∧
    pteAt ((free_page mappedAllDirsState 5).getD initMMU) 5
      = { valid := true, rw := ACCESS_WRITE, priv := 0, pfn := 16 } := by
  refine ⟨by decide, by decide, by decide, by decide, by decide⟩

/-- Claim C4: refuted on the code. In the initial state vpn 0 has no
mapping and every directory pointer is NULL, and free_page(0)
dereferences outer_ptes[0] without a NULL check: the evaluation reaches
an invalid memory access (modelled by none) instead of being a benign
no-op. -/
theorem free_page_crashes_on_empty_pagetable :
    (pteAt initMMU 0).valid = false ∧ (free_page initMMU 0).isNone = true := by
  exact ⟨by decide, by decide⟩

/-- Claim C5: refuted on the code. With a TLB holding a valid read entry
for vpn 3 with pfn 7 and the caller variable initially 0, lookup_tlb
returns true for the read request but the caller variable is still 0
rather than 7: the body assigns the local pointer parameter itself
(pfn = &tlb->pfn) and never stores through it. The match condition
itself behaves as claimed: the same entry does not satisfy a write
request. -/
theorem lookup_tlb_never_writes_out_pfn :
    (oneEntryTlb 0).pfn = 7 ∧
    lookup_tlb oneEntryTlb 3 ACCESS_READ 0 = (true, 0) ∧
    lookup_tlb oneEntryTlb 3 ACCESS_WRITE 0 = (false, 0) := by
  refine ⟨by decide, by decide, by decide⟩

/-- Claim C6: refuted on the code. Two consecutive insert_tlb calls for
the same vpn 5 leave two distinct valid entries for vpn 5 in slots 0 and
1 with the cursor at 2: insert_tlb never searches for an existing entry
and never updates in place, it always writes at the next cursor position
(and the cursor never cycles: at 256 the store would be out of bounds). -/
theorem insert_tlb_duplicates_vpn :
    tlbTwiceState.tlb 0 = { valid := true, vpn := 5, rw := ACCESS_READ, pfn := 7 } ∧
    tlbTwiceState.tlb 1 = { valid := true, vpn := 5, rw := ACCESS_WRITE, pfn := 9 } ∧
    tlbTwiceState.tlbidx = 2 := by
  refine ⟨by decide, by decide, by decide⟩

/-- Claim C7: refuted on the code in the exhausted case. When every
frame has a nonzero mapcount the scan of alloc_page finds no free frame
and the local newpte.pfn is never initialized; the C nevertheless
installs the pte and returns that indeterminate value instead of
returning the failure value -1, so the evaluation reaches undefined
behaviour (modelled by none) rather than a clean Exhausted result. -/
theorem alloc_page_exhaustion_is_undefined :
    (alloc_page fullFramesState 5 ACCESS_WRITE).isNone = true := by
  decide

/-- Claim C8: refuted on the code. Switching from current pid 7 (with
ptbr pointing at its page table) to pid 3, which waits in the ready
queue, correctly removes pid 3 from the queue, pushes pid 7 onto it and
makes pid 3 current, but ptbr still designates the page table of pid 7:
the found branch of switch_process never assigns ptbr. -/
theorem switch_process_leaves_ptbr_stale :
    switchedState.current.pid = 3 ∧
    switchedState.processes.map Process.pid = [7] ∧
    twoProcState.ptbr = 7 ∧
    switchedState.ptbr = 7 := by
  refine ⟨by decide, by decide, by decide, by decide⟩

/-- Claim C9: refuted on the code. In cowState the premise of the
single-owner fast path holds exactly (valid, non-writable pte with the
shared marker set, backing frame 0 with mapcount 1), yet
handle_page_fault for a write access returns false and leaves the pte
untouched: the handler body of the submission is just return false. -/
theorem page_fault_handler_is_stub :
    cowState.mapcounts 0 = 1 ∧
    pteAt cowState 5 = cowPte ∧
    (handle_page_fault cowState 5 ACCESS_WRITE).2 = false ∧
    pteAt (handle_page_fault cowState 5 ACCESS_WRITE).1 5 = cowPte := by
  refine ⟨by decide, by decide, by decide, by decide⟩

/-- Claim C10: confirmed. Whenever alloc_page succeeds (the ascending
scan found a free frame), the pte it installed for the vpn has private
field 0: a freshly allocated page is never marked as copy-on-write
shared. -/
theorem alloc_page_private_flag_zero (st st2 : MMU) (vpn rw f : Nat)
    (h : alloc_page st vpn rw = some (st2, f)) :
    (pteAt st2 vpn).priv = 0 := by
  unfold alloc_page at h
  cases hf : (List.range NR_PAGEFRAMES).find? (fun i => st.mapcounts i == 0) with
  | none =>
    rw [hf] at h
    exact Option.noConfusion h
  | some i =>
    rw [hf] at h
    simp only [Option.some.injEq, Prod.mk.injEq] at h
    obtain ⟨h1, h2⟩ := h
    subst h1
    simp [allocInstall, pteAt, pteOfProc, updFn]

/-- Witness for claim C10: the successful allocation of frame 0 at vpn 5
from the initial state yields a pte with private field 0. -/
theorem alloc_page_private_flag_zero_witness : (pteAt allocWriteState 5).priv = 0 :=
  alloc_page_private_flag_zero initMMU allocWriteState 5 ACCESS_WRITE 0 (by rfl)
